import Mathlib

/-!
Shallow embedding of `qtserialbluetooth.cpp`: a serial-transport adapter over
Bluetooth RFCOMM sockets (functions `qt_serial_open`, `qt_serial_close`,
`qt_serial_read`, `qt_serial_write`, `qt_serial_flush`, `dc_serial_qt_open`).

The Qt socket layer (connect attempts, event-loop waits, `socket->read`,
`socket->write`) is the environment: it is modelled by oracles.  For `open`,
a `Transport` oracle answers the state/descriptor queries the code performs as
a function of the trace of actions (connect requests and bounded waits)
performed so far, so the sequencing of channel attempts and timer waits is
observable in the trace.  For `read`/`write`, the results of the successive
socket transfer calls are given as a list of `IoStep`/`WriteStep` values;
exhausting the list before the loop finishes models an indefinitely blocked
call (`Option.none`).  Machine integers: the status codes are `Int` with the
numeric values of `dc_status_t` from libdivecomputer; byte counts are `Nat`
(the C code uses `unsigned int` and never approaches overflow on the paths
modelled, since counts are bounded by the requested size).
-/

namespace QtSerialBT

/-- Numeric values of the `dc_status_t` enumeration of libdivecomputer. -/
def DC_STATUS_SUCCESS : Int := 0

/-- dc_status_t: DC_STATUS_UNSUPPORTED. -/
def DC_STATUS_UNSUPPORTED : Int := -1

/-- dc_status_t: DC_STATUS_INVALIDARGS. -/
def DC_STATUS_INVALIDARGS : Int := -2

/-- dc_status_t: DC_STATUS_NOMEMORY. -/
def DC_STATUS_NOMEMORY : Int := -3

/-- dc_status_t: DC_STATUS_NODEVICE. -/
def DC_STATUS_NODEVICE : Int := -4

/-- dc_status_t: DC_STATUS_IO. -/
def DC_STATUS_IO : Int := -6

/-- dc_status_t: DC_STATUS_PROTOCOL. -/
def DC_STATUS_PROTOCOL : Int := -8

/-- The `QBluetoothSocket::SocketState` values the code compares against. -/
inductive SocketState where
  | UnconnectedState
  | ServiceLookupState
  | ConnectingState
  | ConnectedState
  | BoundState
  | ClosingState
  | ListeningState
deriving DecidableEq, Repr

/-- The `QBluetoothSocket::SocketError` enumeration (Qt 5 values). -/
inductive SocketError where
  | UnknownSocketError
  | NoSocketError
  | RemoteHostClosedError
  | HostNotFoundError
  | ServiceNotFoundError
  | NetworkError
  | UnsupportedProtocolError
  | OperationError
deriving DecidableEq, Repr

/-- Numeric value of each `QBluetoothSocket::SocketError` enumerator in Qt 5
(`UnknownSocketError = QAbstractSocket::UnknownSocketError = -1`, etc.). -/
def SocketError.toInt : SocketError → Int
  | .UnknownSocketError => -1
  | .NoSocketError => -2
  | .RemoteHostClosedError => 1
  | .HostNotFoundError => 2
  | .ServiceNotFoundError => 9
  | .NetworkError => 7
  | .UnsupportedProtocolError => 8
  | .OperationError => 19

/-- The `switch (err)` block of `qt_serial_open` (lines 90-104): maps the last
socket error to the status the function returns.  The default branch is
translated literally: `return QBluetoothSocket::UnknownSocketError;` returns
the raw Qt enumerator value, not a `DC_STATUS` code. -/
def classifyError (err : SocketError) : Int :=
  match err with
  | .HostNotFoundError => DC_STATUS_NODEVICE
  | .ServiceNotFoundError => DC_STATUS_NODEVICE
  | .UnsupportedProtocolError => DC_STATUS_PROTOCOL
  | .OperationError => DC_STATUS_UNSUPPORTED
  | .NetworkError => DC_STATUS_IO
  | _ => SocketError.toInt .UnknownSocketError

/-- The `serial_t` struct: library context pointer, the `QBluetoothSocket`
pointer (modelled as `Option Unit`: `none` = NULL), and the timeout field. -/
structure serial_t where
  context : Option Unit
  socket : Option Unit
  timeout : Int
deriving DecidableEq, Repr

/-- Observable actions `qt_serial_open` performs against the socket layer:
a `connectToService(address, channel)` request, or one `loop.exec()` wait
bounded by a single-shot timer of `msec` milliseconds. -/
inductive Action where
  | connectTo (addr : String) (channel : Nat)
  | wait (msec : Nat)
deriving DecidableEq, Repr

/-- Oracle for the Qt socket layer during `open`: the socket state and the
descriptor validity observed after a given trace of actions, and the error
code `socket->error()` reports at the end. -/
structure Transport where
  query : List Action → SocketState
  descriptor : List Action → Int
  lastError : SocketError

/-- Result of `qt_serial_open`: the returned status, the value written through
`*out` (`none` = the out location was never assigned), and the trace of
connect/wait actions performed. -/
structure OpenResult where
  status : Int
  written : Option serial_t
  trace : List Action
deriving Repr

/-- Lines 57-81 of `qt_serial_open`: connect on channel 1, wait 5000 ms; if
still connecting wait another `3 * 5000` ms; if instead unconnected, connect on
channel 5, wait 5000 ms, and if still connecting wait another `3 * 5000` ms.
Returns the trace of actions performed. -/
def tierWaits (t : Transport) (devaddr : String) : List Action :=
  let msec : Nat := 5000
  let tr1 : List Action := [.connectTo devaddr 1, .wait msec]
  if t.query tr1 = .ConnectingState then
    tr1 ++ [.wait (3 * msec)]
  else if t.query tr1 = .UnconnectedState then
    let trB := tr1 ++ [.connectTo devaddr 5, .wait msec]
    if t.query trB = .ConnectingState then trB ++ [.wait (3 * msec)] else trB
  else
    tr1

/-- The function `qt_serial_open` (lines 26-110).  `outIsNull` models
`out == NULL`; `allocOk` models whether `malloc` succeeds; `context` is the
opaque `dc_context_t *`.  After the tiered waits the code checks
`socketDescriptor() == -1 || state() != ConnectedState`; on failure it frees
the handle and classifies `socket->error()`, on success it assigns `*out`. -/
def qt_serial_open (outIsNull : Bool) (allocOk : Bool) (context : Option Unit)
    (t : Transport) (devaddr : String) : OpenResult :=
  if outIsNull then
    ⟨DC_STATUS_INVALIDARGS, none, []⟩
  else if allocOk = false then
    ⟨DC_STATUS_NOMEMORY, none, []⟩
  else
    let serial_port : serial_t := ⟨context, some (), -1⟩
    let tr := tierWaits t devaddr
    if t.descriptor tr = -1 ∨ t.query tr ≠ .ConnectedState then
      ⟨classifyError t.lastError, none, tr⟩
    else
      ⟨DC_STATUS_SUCCESS, some serial_port, tr⟩

/-- Result of `qt_serial_close`: the returned status, the handle as seen by
the caller afterwards (`none` once freed), and counters for `free(device)`
and `delete device->socket` so double-frees are observable. -/
structure CloseResult where
  status : Int
  handle : Option serial_t
  freedSerial : Nat
  freedSocket : Nat
deriving DecidableEq, Repr

/-- The function `qt_serial_close` (lines 112-123): NULL device or NULL socket
returns success immediately; otherwise the socket is closed and deleted and
the device struct is freed. -/
def qt_serial_close (device : Option serial_t) : CloseResult :=
  match device with
  | none => ⟨DC_STATUS_SUCCESS, none, 0, 0⟩
  | some d =>
    match d.socket with
    | none => ⟨DC_STATUS_SUCCESS, some d, 0, 0⟩
    | some _ => ⟨DC_STATUS_SUCCESS, none, 1, 1⟩

/-- Result of one `socket->read` attempt inside the `qt_serial_read` loop:
either a delivered chunk of bytes (`rc = chunk.length`, possibly 0), or a
negative return with `errno ∈ {EINTR, EAGAIN}` (transient), or a negative
return with any other `errno` (hard failure). -/
inductive IoStep where
  | chunk (bytes : List Nat)
  | transientErr
  | hardErr
deriving DecidableEq, Repr

/-- The `while (nbytes < size)` loop of `qt_serial_read` (lines 133-152).
`acc` is the contents of the caller buffer so far.  A transient error retries;
a hard error returns -1 at once; a chunk (a zero-byte chunk models the
`rc == 0` wait-for-readyRead path followed by `nbytes += 0`) is appended and
the loop continues.  Returns the status, the buffer contents, and the
unconsumed steps; `none` models blocking forever once the oracle runs out. -/
def read_loop (size : Nat) (acc : List Nat) :
    List IoStep → Option (Int × List Nat × List IoStep)
  | [] =>
    if acc.length < size then none
    else some ((acc.length : Int), acc, [])
  | s :: rest =>
    if acc.length < size then
      match s with
      | .transientErr => read_loop size acc rest
      | .hardErr => some (-1, acc, rest)
      | .chunk b => read_loop size (acc ++ b) rest
    else
      some ((acc.length : Int), acc, s :: rest)

/-- The function `qt_serial_read` (lines 125-155): NULL device or NULL socket
is `DC_STATUS_INVALIDARGS`; otherwise the accumulation loop runs. -/
def qt_serial_read (device : Option serial_t) (size : Nat) (steps : List IoStep) :
    Option (Int × List Nat × List IoStep) :=
  match device with
  | none => some (DC_STATUS_INVALIDARGS, [], steps)
  | some d =>
    match d.socket with
    | none => some (DC_STATUS_INVALIDARGS, [], steps)
    | some _ => read_loop size [] steps

/-- Result of one `socket->write` attempt inside the `qt_serial_write` loop:
`rc = n` bytes accepted (possibly 0), or a transient negative return
(`errno ∈ {EINTR, EAGAIN}`), or a hard negative return. -/
inductive WriteStep where
  | accepted (n : Nat)
  | transientErr
  | hardErr
deriving DecidableEq, Repr

/-- The `while (nbytes < size)` loop of `qt_serial_write` (lines 165-181):
transient errors retry, a hard error returns -1, `rc == 0` breaks out of the
loop (so the bytes written so far are returned), otherwise `nbytes += rc`. -/
def write_loop (size : Nat) (nbytes : Nat) :
    List WriteStep → Option (Int × List WriteStep)
  | [] =>
    if nbytes < size then none
    else some ((nbytes : Int), [])
  | s :: rest =>
    if nbytes < size then
      match s with
      | .transientErr => write_loop size nbytes rest
      | .hardErr => some (-1, rest)
      | .accepted 0 => some ((nbytes : Int), rest)
      | .accepted (n + 1) => write_loop size (nbytes + (n + 1)) rest
    else
      some ((nbytes : Int), s :: rest)

/-- The function `qt_serial_write` (lines 157-184). -/
def qt_serial_write (device : Option serial_t) (size : Nat) (steps : List WriteStep) :
    Option (Int × List WriteStep) :=
  match device with
  | none => some (DC_STATUS_INVALIDARGS, steps)
  | some d =>
    match d.socket with
    | none => some (DC_STATUS_INVALIDARGS, steps)
    | some _ => write_loop size 0 steps

/-- The function `qt_serial_flush` (lines 186-194): NULL device or NULL socket
is `DC_STATUS_INVALIDARGS`; otherwise the body is a TODO and the function
returns success without touching the socket. -/
def qt_serial_flush (device : Option serial_t) (queue : Int) : Int :=
  match device with
  | none => DC_STATUS_INVALIDARGS
  | some d =>
    match d.socket with
    | none => DC_STATUS_INVALIDARGS
    | some _ => DC_STATUS_SUCCESS

/-- The `dc_transport_t` tag recorded on the wrapper device. -/
inductive dc_transport_t where
  | DC_TRANSPORT_SERIAL
  | DC_TRANSPORT_USB
  | DC_TRANSPORT_IRDA
  | DC_TRANSPORT_BLUETOOTH
deriving DecidableEq, Repr

/-- The `dc_serial_t` wrapper struct: the port written by `qt_serial_open`
and the transport-type tag. -/
structure dc_serial_t where
  port : serial_t
  type : dc_transport_t
deriving DecidableEq, Repr

/-- Result of `dc_serial_qt_open`: status, value written through `*out`
(`none` = untouched), and the trace of the inner open. -/
structure DcOpenResult where
  status : Int
  written : Option dc_serial_t
  trace : List Action
deriving Repr

/-- The function `dc_serial_qt_open` (lines 225-253): NULL out pointer is
`DC_STATUS_INVALIDARGS`; failed `malloc` is `DC_STATUS_NOMEMORY`; then
`qt_serial_open` runs against `&serial_device->port` (a non-NULL out pointer)
and on its failure the wrapper is freed and the status forwarded; on success
the transport type is set to Bluetooth and `*out` is assigned.
(`dc_serial_init` only installs the function-pointer table and has no
observable effect here.) -/
def dc_serial_qt_open (outIsNull : Bool) (allocOuterOk : Bool) (allocInnerOk : Bool)
    (context : Option Unit) (t : Transport) (devaddr : String) : DcOpenResult :=
  if outIsNull then
    ⟨DC_STATUS_INVALIDARGS, none, []⟩
  else if allocOuterOk = false then
    ⟨DC_STATUS_NOMEMORY, none, []⟩
  else
    let r := qt_serial_open false allocInnerOk context t devaddr
    if r.status ≠ DC_STATUS_SUCCESS then
      ⟨r.status, none, r.trace⟩
    else
      match r.written with
      | some port => ⟨DC_STATUS_SUCCESS, some ⟨port, .DC_TRANSPORT_BLUETOOTH⟩, r.trace⟩
      | none => ⟨DC_STATUS_SUCCESS, none, r.trace⟩

/-- Data length contributed by one read step. -/
def IoStep.dataLen : IoStep → Nat
  | .chunk b => b.length
  | _ => 0

/-- Whether a read step is the hard-failure result. -/
def IoStep.isHard : IoStep → Bool
  | .hardErr => true
  | _ => false

/-- Total number of bytes the oracle delivers over a list of read steps. -/
def totalData (steps : List IoStep) : Nat :=
  (steps.map IoStep.dataLen).sum

/-- Concatenation, in delivery order, of the bytes in a list of read steps. -/
def dataBytes : List IoStep → List Nat
  | [] => []
  | .chunk b :: rest => b ++ dataBytes rest
  | .transientErr :: rest => dataBytes rest
  | .hardErr :: rest => dataBytes rest

/-- Whether a write step keeps the write loop progressing: a transient error
or a strictly positive accepted count (a zero count breaks the loop and a
hard error aborts it). -/
def WriteStep.isProgress : WriteStep → Bool
  | .transientErr => true
  | .accepted (_ + 1) => true
  | _ => false

/-- Total number of bytes accepted over a list of write steps. -/
def sumAccepted : List WriteStep → Nat
  | [] => 0
  | .accepted n :: rest => n + sumAccepted rest
  | .transientErr :: rest => sumAccepted rest
  | .hardErr :: rest => sumAccepted rest

/-- A device in the state produced by a successful `qt_serial_open`. -/
def connectedDev : serial_t := ⟨none, some (), -1⟩

/-- A syntactically well-formed Bluetooth address for concrete runs. -/
def demoAddr : String := "00:11:22:33:44:55"

/-- A malformed device address for concrete runs. -/
def badAddr : String := "not-a-bluetooth-address"

/-- A transport that rejects every connection attempt with host-not-found:
every state query answers unconnected and the descriptor is invalid. -/
def rejectAllTransport : Transport :=
  ⟨fun _ => .UnconnectedState, fun _ => -1, .HostNotFoundError⟩

/-- The trace after channel 1 was refused and channel 5 was attempted. -/
def chan1Then5 : List Action :=
  [.connectTo demoAddr 1, .wait 5000, .connectTo demoAddr 5, .wait 5000]

/-- A transport that refuses channel 1 immediately and accepts channel 5:
connected exactly once the channel-5 attempt has been made. -/
def fallbackTransport : Transport :=
  ⟨fun tr => if tr = chan1Then5 then .ConnectedState else .UnconnectedState,
   fun _ => 3, .NoSocketError⟩

/-! ## Helper lemmas -/

lemma classifyError_ne_invalidargs (e : SocketError) :
    classifyError e ≠ DC_STATUS_INVALIDARGS := by
  cases e <;> decide

lemma open_trace_eq (allocOk : Bool) (ctx : Option Unit) (t : Transport) (addr : String)
    (h : allocOk = true) : (qt_serial_open false allocOk ctx t addr).trace = tierWaits t addr := by
  subst h
  unfold qt_serial_open
  simp only [Bool.true_eq_false, if_false, Bool.false_eq_true]
  split <;> rfl

lemma dataBytes_length (steps : List IoStep) :
    (dataBytes steps).length = totalData steps := by
  induction steps with
  | nil => rfl
  | cons s rest ih => cases s <;> simp [dataBytes, totalData, IoStep.dataLen, ih]

lemma read_loop_done (size : Nat) (acc : List Nat) (steps : List IoStep)
    (h : ¬ acc.length < size) :
    read_loop size acc steps = some ((acc.length : Int), acc, steps) := by
  cases steps <;> simp [read_loop, h]

lemma read_loop_transient (size : Nat) (acc : List Nat) (rest : List IoStep)
    (h : acc.length < size) :
    read_loop size acc (.transientErr :: rest) = read_loop size acc rest := by
  simp [read_loop, h]

lemma read_loop_hard_step (size : Nat) (acc : List Nat) (rest : List IoStep)
    (h : acc.length < size) :
    read_loop size acc (.hardErr :: rest) = some (-1, acc, rest) := by
  simp [read_loop, h]

lemma read_loop_chunk (size : Nat) (acc b : List Nat) (rest : List IoStep)
    (h : acc.length < size) :
    read_loop size acc (.chunk b :: rest) = read_loop size (acc ++ b) rest := by
  simp [read_loop, h]

lemma read_loop_reaches (size : Nat) :
    ∀ (steps : List IoStep) (acc : List Nat),
      (∀ s ∈ steps, s.isHard = false) → acc.length + totalData steps = size →
      ∃ rest, read_loop size acc steps = some ((size : Int), acc ++ dataBytes steps, rest) := by
  intro steps
  induction steps with
  | nil =>
    intro acc _ hlen
    simp only [totalData, List.map_nil, List.sum_nil, Nat.add_zero] at hlen
    exact ⟨[], by simp [read_loop_done size acc [] (by omega), hlen, dataBytes]⟩
  | cons s rest ih =>
    intro acc hh hlen
    by_cases hlt : acc.length < size
    · cases s with
      | transientErr =>
        have hlen2 : acc.length + totalData rest = size := by
          simpa [totalData, IoStep.dataLen] using hlen
        obtain ⟨r, hr⟩ := ih acc (fun x hx => hh x (List.mem_cons_of_mem _ hx)) hlen2
        exact ⟨r, by rw [read_loop_transient size acc rest hlt, hr]; simp [dataBytes]⟩
      | hardErr =>
        have : IoStep.isHard .hardErr = false := hh _ (List.mem_cons_self _ _)
        simp [IoStep.isHard] at this
      | chunk b =>
        have hlen2 : (acc ++ b).length + totalData rest = size := by
          simp only [totalData, List.map_cons, List.sum_cons, IoStep.dataLen] at hlen ⊢
          simp only [List.length_append]
          omega
        obtain ⟨r, hr⟩ := ih (acc ++ b) (fun x hx => hh x (List.mem_cons_of_mem _ hx)) hlen2
        exact ⟨r, by rw [read_loop_chunk size acc b rest hlt, hr]; simp [dataBytes]⟩
    · have hz : totalData (s :: rest) = 0 := by omega
      have hacc : acc.length = size := by omega
      have hnil : dataBytes (s :: rest) = [] :=
        List.eq_nil_of_length_eq_zero (by rw [dataBytes_length]; exact hz)
      exact ⟨s :: rest, by simp [read_loop_done size acc (s :: rest) hlt, hacc, hnil]⟩

lemma read_loop_hits_hard (size : Nat) :
    ∀ (pre : List IoStep) (acc : List Nat) (rest : List IoStep),
      (∀ s ∈ pre, s.isHard = false) → acc.length + totalData pre < size →
      read_loop size acc (pre ++ .hardErr :: rest) = some (-1, acc ++ dataBytes pre, rest) := by
  intro pre
  induction pre with
  | nil =>
    intro acc rest _ hlen
    simp only [totalData, List.map_nil, List.sum_nil, Nat.add_zero] at hlen
    simp [read_loop_hard_step size acc rest hlen, dataBytes]
  | cons s pre ih =>
    intro acc rest hh hlen
    have hlt : acc.length < size := by
      have : (0 : Nat) ≤ totalData (s :: pre) := Nat.zero_le _
      omega
    cases s with
    | transientErr =>
      have hlen2 : acc.length + totalData pre < size := by
        simpa [totalData, IoStep.dataLen] using hlen
      rw [List.cons_append, read_loop_transient size acc _ hlt,
        ih acc rest (fun x hx => hh x (List.mem_cons_of_mem _ hx)) hlen2]
      simp [dataBytes]
    | hardErr =>
      have : IoStep.isHard .hardErr = false := hh _ (List.mem_cons_self _ _)
      simp [IoStep.isHard] at this
    | chunk b =>
      have hlen2 : (acc ++ b).length + totalData pre < size := by
        simp only [totalData, List.map_cons, List.sum_cons, IoStep.dataLen] at hlen ⊢
        simp only [List.length_append]
        omega
      rw [List.cons_append, read_loop_chunk size acc b _ hlt,
        ih (acc ++ b) rest (fun x hx => hh x (List.mem_cons_of_mem _ hx)) hlen2]
      simp [dataBytes]

lemma write_loop_done (size nbytes : Nat) (steps : List WriteStep)
    (h : ¬ nbytes < size) :
    write_loop size nbytes steps = some ((nbytes : Int), steps) := by
  cases steps <;> simp [write_loop, h]

lemma write_loop_transient (size nbytes : Nat) (rest : List WriteStep)
    (h : nbytes < size) :
    write_loop size nbytes (.transientErr :: rest) = write_loop size nbytes rest := by
  simp [write_loop, h]

lemma write_loop_hard_step (size nbytes : Nat) (rest : List WriteStep)
    (h : nbytes < size) :
    write_loop size nbytes (.hardErr :: rest) = some (-1, rest) := by
  simp [write_loop, h]

lemma write_loop_zero (size nbytes : Nat) (rest : List WriteStep)
    (h : nbytes < size) :
    write_loop size nbytes (.accepted 0 :: rest) = some ((nbytes : Int), rest) := by
  simp [write_loop, h]

lemma write_loop_pos (size nbytes n : Nat) (rest : List WriteStep)
    (h : nbytes < size) :
    write_loop size nbytes (.accepted (n + 1) :: rest) =
      write_loop size (nbytes + (n + 1)) rest := by
  simp [write_loop, h]

lemma write_loop_progresses (size : Nat) :
    ∀ (pre : List WriteStep) (nbytes : Nat) (rest : List WriteStep),
      (∀ s ∈ pre, s.isProgress = true) → nbytes + sumAccepted pre < size →
      write_loop size nbytes (pre ++ .accepted 0 :: rest) =
        some (((nbytes + sumAccepted pre : Nat) : Int), rest) := by
  intro pre
  induction pre with
  | nil =>
    intro nbytes rest _ hlen
    simp only [sumAccepted, Nat.add_zero] at hlen ⊢
    simp [write_loop_zero size nbytes rest hlen]
  | cons s pre ih =>
    intro nbytes rest hp hlen
    have hlt : nbytes < size := by
      have : (0 : Nat) ≤ sumAccepted (s :: pre) := Nat.zero_le _
      omega
    cases s with
    | transientErr =>
      have hlen2 : nbytes + sumAccepted pre < size := by simpa [sumAccepted] using hlen
      rw [List.cons_append, write_loop_transient size nbytes _ hlt,
        ih nbytes rest (fun x hx => hp x (List.mem_cons_of_mem _ hx)) hlen2]
      simp [sumAccepted]
    | hardErr =>
      have : WriteStep.isProgress .hardErr = true := hp _ (List.mem_cons_self _ _)
      simp [WriteStep.isProgress] at this
    | accepted n =>
      cases n with
      | zero =>
        have : WriteStep.isProgress (.accepted 0) = true := hp _ (List.mem_cons_self _ _)
        simp [WriteStep.isProgress] at this
      | succ m =>
        have hs : sumAccepted (.accepted (m + 1) :: pre) = (m + 1) + sumAccepted pre := rfl
        have hlen2 : (nbytes + (m + 1)) + sumAccepted pre < size := by
          rw [hs] at hlen
          omega
        rw [List.cons_append, write_loop_pos size nbytes m _ hlt,
          ih (nbytes + (m + 1)) rest (fun x hx => hp x (List.mem_cons_of_mem _ hx)) hlen2, hs]
        simp [Nat.add_assoc]

lemma write_loop_hits_hard (size : Nat) :
    ∀ (pre : List WriteStep) (nbytes : Nat) (rest : List WriteStep),
      (∀ s ∈ pre, s.isProgress = true) → nbytes + sumAccepted pre < size →
      write_loop size nbytes (pre ++ .hardErr :: rest) = some (-1, rest) := by
  intro pre
  induction pre with
  | nil =>
    intro nbytes rest _ hlen
    simp only [sumAccepted, Nat.add_zero] at hlen
    simp [write_loop_hard_step size nbytes rest hlen]
  | cons s pre ih =>
    intro nbytes rest hp hlen
    have hlt : nbytes < size := by
      have : (0 : Nat) ≤ sumAccepted (s :: pre) := Nat.zero_le _
      omega
    cases s with
    | transientErr =>
      have hlen2 : nbytes + sumAccepted pre < size := by simpa [sumAccepted] using hlen
      rw [List.cons_append, write_loop_transient size nbytes _ hlt,
        ih nbytes rest (fun x hx => hp x (List.mem_cons_of_mem _ hx)) hlen2]
    | hardErr =>
      have : WriteStep.isProgress .hardErr = true := hp _ (List.mem_cons_self _ _)
      simp [WriteStep.isProgress] at this
    | accepted n =>
      cases n with
      | zero =>
        have : WriteStep.isProgress (.accepted 0) = true := hp _ (List.mem_cons_self _ _)
        simp [WriteStep.isProgress] at this
      | succ m =>
        have hs : sumAccepted (.accepted (m + 1) :: pre) = (m + 1) + sumAccepted pre := rfl
        have hlen2 : (nbytes + (m + 1)) + sumAccepted pre < size := by
          rw [hs] at hlen
          omega
        rw [List.cons_append, write_loop_pos size nbytes m _ hlt,
          ih (nbytes + (m + 1)) rest (fun x hx => hp x (List.mem_cons_of_mem _ hx)) hlen2]

/-! ## Claim theorems -/

/-- C1: the first four rows of the classification table hold (host/service not
found map to `DC_STATUS_NODEVICE`, unsupported protocol to
`DC_STATUS_PROTOCOL`, operation error to `DC_STATUS_UNSUPPORTED`, network
error to `DC_STATUS_IO`), but the default branch does not produce a portable
Unknown kind: it returns the raw Qt enumerator value
`QBluetoothSocket::UnknownSocketError = -1`, which as a `dc_status_t` is
`DC_STATUS_UNSUPPORTED`.  Evaluated here at the unclassified codes
`NoSocketError` and `RemoteHostClosedError`. -/
theorem C1_default_branch_returns_raw_qt_code :
    classifyError .HostNotFoundError = DC_STATUS_NODEVICE ∧
    classifyError .ServiceNotFoundError = DC_STATUS_NODEVICE ∧
    classifyError .UnsupportedProtocolError = DC_STATUS_PROTOCOL ∧
    classifyError .OperationError = DC_STATUS_UNSUPPORTED ∧
    classifyError .NetworkError = DC_STATUS_IO ∧
    classifyError .NoSocketError = SocketError.toInt .UnknownSocketError ∧
    classifyError .RemoteHostClosedError = SocketError.toInt .UnknownSocketError ∧
    SocketError.toInt .UnknownSocketError = DC_STATUS_UNSUPPORTED := by
  decide

/-- C2: if, when the first 5000 ms wait on channel 1 resolves, the socket is
in the terminal unconnected state, `open` immediately attempts channel 5 and
runs the same two-tier wait there (5000 ms, then 15000 ms exactly when the
channel-5 attempt is still connecting): no 15000 ms wait ever happens on
channel 1. -/
theorem C2_channel5_fallback (t : Transport) (ctx : Option Unit) (addr : String)
    (h : t.query [.connectTo addr 1, .wait 5000] = .UnconnectedState) :
    (qt_serial_open false true ctx t addr).trace =
      if t.query [.connectTo addr 1, .wait 5000, .connectTo addr 5, .wait 5000] =
          .ConnectingState then
        [.connectTo addr 1, .wait 5000, .connectTo addr 5, .wait 5000, .wait 15000]
      else
        [.connectTo addr 1, .wait 5000, .connectTo addr 5, .wait 5000] := by
  rw [open_trace_eq true ctx t addr rfl]
  unfold tierWaits
  simp only [h]
  split <;> simp_all

/-- C2 witness: against a transport that refuses channel 1 at once and
accepts on channel 5, the trace is exactly channel 1, 5000 ms, channel 5,
5000 ms, and the open succeeds. -/
theorem C2_channel5_fallback_witness :
    (qt_serial_open false true none fallbackTransport demoAddr).trace =
      [.connectTo demoAddr 1, .wait 5000, .connectTo demoAddr 5, .wait 5000] ∧
    (qt_serial_open false true none fallbackTransport demoAddr).status =
      DC_STATUS_SUCCESS := by
  constructor
  · have h := C2_channel5_fallback fallbackTransport none demoAddr (by decide)
    rw [if_neg (by decide)] at h
    exact h
  · decide

/-- C3 counterexample: `flush` on a NULL handle reports
`DC_STATUS_INVALIDARGS`, not success, for queue selector 0. -/
theorem C3_flush_null_counterexample :
    qt_serial_flush none 0 = DC_STATUS_INVALIDARGS ∧
    DC_STATUS_INVALIDARGS ≠ DC_STATUS_SUCCESS := by
  decide

/-- C3 amended: `flush` is a no-op that reports success for every handle whose
socket reference is non-NULL (connected or not) and every queue selector;
a NULL handle or NULL socket instead reports `DC_STATUS_INVALIDARGS`. -/
theorem C3_flush_noop_success (d : serial_t) (q : Int) (h : d.socket = some ()) :
    qt_serial_flush (some d) q = DC_STATUS_SUCCESS := by
  simp [qt_serial_flush, h]

/-- C3 witness: `flush` succeeds on a live handle with queue selector 0. -/
theorem C3_flush_noop_success_witness :
    qt_serial_flush (some connectedDev) 0 = DC_STATUS_SUCCESS :=
  C3_flush_noop_success connectedDev 0 rfl

/-- C4 counterexample: a malformed address is not rejected with
`DC_STATUS_INVALIDARGS`; the connect attempt simply fails and `open` returns
the classified transport error (here host-not-found, `DC_STATUS_NODEVICE`). -/
theorem C4_malformed_address_counterexample :
    (qt_serial_open false true none rejectAllTransport badAddr).status =
      DC_STATUS_NODEVICE ∧
    DC_STATUS_NODEVICE ≠ DC_STATUS_INVALIDARGS := by
  decide

/-- C4 amended: `open` never validates the device address; with a non-NULL
out pointer it never returns `DC_STATUS_INVALIDARGS` whatever the address,
and `DC_STATUS_INVALIDARGS` arises exactly from a NULL out pointer. -/
theorem C4_no_address_validation :
    (∀ (allocOk : Bool) (ctx : Option Unit) (t : Transport) (addr : String),
      (qt_serial_open false allocOk ctx t addr).status ≠ DC_STATUS_INVALIDARGS) ∧
    (∀ (allocOk : Bool) (ctx : Option Unit) (t : Transport) (addr : String),
      (qt_serial_open true allocOk ctx t addr).status = DC_STATUS_INVALIDARGS) := by
  constructor
  · intro allocOk ctx t addr
    unfold qt_serial_open
    cases allocOk with
    | false => simp [DC_STATUS_NOMEMORY, DC_STATUS_INVALIDARGS]
    | true =>
      simp only [Bool.true_eq_false, if_false, Bool.false_eq_true]
      split
      · exact classifyError_ne_invalidargs t.lastError
      · simp [DC_STATUS_SUCCESS, DC_STATUS_INVALIDARGS]
  · intro allocOk ctx t addr
    rfl

/-- C5 counterexample: after one delivered byte, a hard failure makes `read`
return the literal -1, which is not the portable I/O status
`DC_STATUS_IO = -6` (and likewise `write` returns -1, not `DC_STATUS_IO`). -/
theorem C5_hard_error_counterexample :
    qt_serial_read (some connectedDev) 3 [.chunk [7], .hardErr] =
      some (-1, [7], []) ∧
    qt_serial_write (some connectedDev) 3 [.accepted 1, .hardErr] =
      some (-1, []) ∧
    (-1 : Int) ≠ DC_STATUS_IO := by
  decide

/-- C5 amended: on a connected handle, once a transfer attempt reports a hard
(non-transient) failure, `read` and `write` abort at once — no later oracle
step is consumed — returning the generic error value -1 (not the portable
`DC_STATUS_IO`); the bytes already placed in the read buffer are returned
unreported, i.e. partial progress is discarded from the caller's view. -/
theorem C5_hard_error_aborts :
    (∀ (ctx : Option Unit) (tmo : Int) (size : Nat) (pre rest : List IoStep),
      (∀ s ∈ pre, s.isHard = false) → totalData pre < size →
      qt_serial_read (some ⟨ctx, some (), tmo⟩) size (pre ++ .hardErr :: rest) =
        some (-1, dataBytes pre, rest)) ∧
    (∀ (ctx : Option Unit) (tmo : Int) (size : Nat) (pre rest : List WriteStep),
      (∀ s ∈ pre, s.isProgress = true) → sumAccepted pre < size →
      qt_serial_write (some ⟨ctx, some (), tmo⟩) size (pre ++ .hardErr :: rest) =
        some (-1, rest)) := by
  constructor
  · intro ctx tmo size pre rest hh hlen
    unfold qt_serial_read
    simpa using read_loop_hits_hard size pre [] rest hh (by simpa using hlen)
  · intro ctx tmo size pre rest hp hlen
    unfold qt_serial_write
    simpa using write_loop_hits_hard size pre 0 rest hp (by simpa using hlen)

/-- C5 witness: a hard failure after one delivered byte (read) or two
accepted bytes (write) aborts at once with -1, leaving later steps
unconsumed. -/
theorem C5_hard_error_aborts_witness :
    qt_serial_read (some connectedDev) 5
        [.chunk [9], .transientErr, .hardErr, .chunk [1]] =
      some (-1, [9], [.chunk [1]]) ∧
    qt_serial_write (some connectedDev) 5 [.accepted 2, .hardErr, .accepted 9] =
      some (-1, [.accepted 9]) := by
  constructor
  · exact C5_hard_error_aborts.1 none (-1) 5 [.chunk [9], .transientErr] [.chunk [1]]
      (by decide) (by decide)
  · exact C5_hard_error_aborts.2 none (-1) 5 [.accepted 2] [.accepted 9]
      (by decide) (by decide)

/-- C6: on a connected handle, whenever the oracle steps contain no hard
failure and deliver in total exactly `size` bytes — in chunks of any sizes,
with transient errors and zero-byte results (the wait-for-data path)
interleaved anywhere — `read` returns `size` and the buffer holds the
delivered bytes in delivery order. -/
theorem C6_read_accumulation (ctx : Option Unit) (tmo : Int) (size : Nat)
    (steps : List IoStep) (hh : ∀ s ∈ steps, s.isHard = false)
    (hlen : totalData steps = size) :
    ∃ rest, qt_serial_read (some ⟨ctx, some (), tmo⟩) size steps =
      some ((size : Int), dataBytes steps, rest) := by
  unfold qt_serial_read
  simpa using read_loop_reaches size steps [] hh (by simpa using hlen)

/-- C6 witness: a 6-byte read delivered as 2 + 0 + 1 + 3 bytes with a
transient error interleaved returns 6 and the bytes in order. -/
theorem C6_read_accumulation_witness :
    ∃ rest, qt_serial_read (some connectedDev) 6
        [.chunk [10, 20], .chunk [], .transientErr, .chunk [30], .chunk [40, 50, 60]] =
      some ((6 : Int), dataBytes
        [.chunk [10, 20], .chunk [], .transientErr, .chunk [30], .chunk [40, 50, 60]], rest) :=
  C6_read_accumulation none (-1) 6
    [.chunk [10, 20], .chunk [], .transientErr, .chunk [30], .chunk [40, 50, 60]]
    (by decide) (by decide)

/-- C7: on a connected handle, when the transport has accepted `k < size`
bytes (across positive partial writes and transient retries) and the next
attempt accepts zero bytes with no error, `write` stops and returns `k`,
consuming nothing further. -/
theorem C7_write_short_write (ctx : Option Unit) (tmo : Int) (size k : Nat)
    (pre rest : List WriteStep) (hp : ∀ s ∈ pre, s.isProgress = true)
    (hk : sumAccepted pre = k) (hlt : k < size) :
    qt_serial_write (some ⟨ctx, some (), tmo⟩) size (pre ++ .accepted 0 :: rest) =
      some ((k : Int), rest) := by
  unfold qt_serial_write
  have h := write_loop_progresses size pre 0 rest hp (by simpa [hk] using hlt)
  simpa [hk] using h

/-- C7 witness: a 9-byte write that gets 2 and 3 bytes accepted (with a
transient retry between) and then a zero-byte result returns 5, leaving the
later oracle step unconsumed. -/
theorem C7_write_short_write_witness :
    qt_serial_write (some connectedDev) 9
        [.accepted 2, .transientErr, .accepted 3, .accepted 0, .accepted 4] =
      some ((5 : Int), [.accepted 4]) := by
  have h := C7_write_short_write none (-1) 9 5
    [.accepted 2, .transientErr, .accepted 3] [.accepted 4]
    (by decide) (by decide) (by decide)
  exact h

/-- C8: `close` always reports success; closing a NULL handle does nothing;
closing a live handle deletes the socket and frees the struct exactly once
and leaves the caller with a NULL handle; and a second `close` of whatever
the first one left behind performs no further free, so a double close never
double-frees. -/
theorem C8_close_idempotent :
    (∀ h, (qt_serial_close h).status = DC_STATUS_SUCCESS) ∧
    qt_serial_close none = ⟨DC_STATUS_SUCCESS, none, 0, 0⟩ ∧
    (∀ ctx tmo, qt_serial_close (some ⟨ctx, some (), tmo⟩) =
      ⟨DC_STATUS_SUCCESS, none, 1, 1⟩) ∧
    (∀ h, (qt_serial_close h).freedSerial +
        (qt_serial_close ((qt_serial_close h).handle)).freedSerial ≤ 1 ∧
      (qt_serial_close h).freedSocket +
        (qt_serial_close ((qt_serial_close h).handle)).freedSocket ≤ 1) := by
  refine ⟨?_, rfl, fun ctx tmo => rfl, ?_⟩
  · intro h
    match h with
    | none => rfl
    | some d =>
      match hs : d.socket with
      | none => simp [qt_serial_close, hs]
      | some _ => simp [qt_serial_close, hs]
  · intro h
    match h with
    | none => exact ⟨by decide, by decide⟩
    | some d =>
      match hs : d.socket with
      | none => simp [qt_serial_close, hs]
      | some _ => simp [qt_serial_close, hs]

/-- C9: neither `qt_serial_open` nor `dc_serial_qt_open` assigns its out
parameter on any non-success return: whenever the status is not
`DC_STATUS_SUCCESS`, the modelled out location is untouched (`none`). -/
theorem C9_out_untouched_on_error :
    (∀ (outN allocOk : Bool) (ctx : Option Unit) (t : Transport) (addr : String),
      (qt_serial_open outN allocOk ctx t addr).status ≠ DC_STATUS_SUCCESS →
      (qt_serial_open outN allocOk ctx t addr).written = none) ∧
    (∀ (outN aOuter aInner : Bool) (ctx : Option Unit) (t : Transport) (addr : String),
      (dc_serial_qt_open outN aOuter aInner ctx t addr).status ≠ DC_STATUS_SUCCESS →
      (dc_serial_qt_open outN aOuter aInner ctx t addr).written = none) := by
  constructor
  · intro outN allocOk ctx t addr hne
    unfold qt_serial_open at hne ⊢
    cases outN with
    | true => rfl
    | false =>
      cases allocOk with
      | false => rfl
      | true =>
        simp only [Bool.true_eq_false, if_false, Bool.false_eq_true] at hne ⊢
        split at hne
        · simp_all
        · exact absurd rfl hne
  · intro outN aOuter aInner ctx t addr hne
    unfold dc_serial_qt_open at hne ⊢
    cases outN with
    | true => rfl
    | false =>
      cases aOuter with
      | false => rfl
      | true =>
        simp only [Bool.true_eq_false, if_false, Bool.false_eq_true] at hne ⊢
        split at hne
        · simp_all
        · split at hne <;> exact absurd rfl hne

/-- C9 witness: with a NULL out pointer (`qt_serial_open`) and with a failing
connect (`dc_serial_qt_open`), the out location stays untouched. -/
theorem C9_out_untouched_witness :
    (qt_serial_open true true none rejectAllTransport demoAddr).written = none ∧
    (dc_serial_qt_open false true true none rejectAllTransport demoAddr).written = none := by
  constructor
  · exact C9_out_untouched_on_error.1 true true none rejectAllTransport demoAddr (by decide)
  · exact C9_out_untouched_on_error.2 false true true none rejectAllTransport demoAddr
      (by decide)

/-- C10: on a non-NULL handle with a live socket, `read` and `write` with a
requested size of 0 return 0 at once, consuming no oracle step at all — no
transfer attempt and no wait happens. -/
theorem C10_zero_size_immediate (ctx : Option Unit) (tmo : Int)
    (rsteps : List IoStep) (wsteps : List WriteStep) :
    qt_serial_read (some ⟨ctx, some (), tmo⟩) 0 rsteps = some (0, [], rsteps) ∧
    qt_serial_write (some ⟨ctx, some (), tmo⟩) 0 wsteps = some (0, wsteps) := by
  constructor
  · unfold qt_serial_read
    simpa using read_loop_done 0 [] rsteps (by omega)
  · unfold qt_serial_write
    simpa using write_loop_done 0 0 wsteps (by omega)

end QtSerialBT
